import Mathlib

/-!
Shallow embedding of the Moviweb-SQL repository (src/app.py, src/data_models.py,
src/datamanager/json_data_manager.py) and verification of its specification claims.

Python dicts with string keys and string values are embedded as insertion-ordered
association lists; the SQLAlchemy-backed entity store (User/Movie/Review tables in
SQLite) is embedded as a `Store` structure of lists; Flask route handlers become
functions from a store (plus the gateway's response for the relevant title) to a
`RouteResult`; Python exceptions become an `Except PyExc` channel.
-/

/-- A Python `dict` with string keys and values, as an insertion-ordered
association list (keys unique by construction of the operations used). -/
abbrev Dict := List (String × String)

/-- `d.get(k)` / `d[k]`: the value at the first occurrence of key `k`. -/
def Dict.get? (d : Dict) (k : String) : Option String :=
  (d.find? (fun p => p.1 == k)).map (fun p => p.2)

/-- `d.get(k, dflt)` from Python: value at `k`, or the default. -/
def Dict.getD (d : Dict) (k dflt : String) : String :=
  (Dict.get? d k).getD dflt

/-- Python truthiness of a dict: `not d` holds exactly when `d` is empty. -/
def Dict.isEmptyDict (d : Dict) : Bool := d.isEmpty

/-- Python `\x7b**a, **b\x7d`: keys of `a` in order (with `b`'s value whenever `b`
also binds the key), followed by the keys only `b` binds, in `b`'s order.
This is the merge `combined_movie_data = \x7b**movie.to_dict(), **movie_details\x7d`
performed by `get_user_movies` in src/app.py. -/
def Dict.merge (a b : Dict) : Dict :=
  a.map (fun p => (p.1, Dict.getD b p.1 p.2)) ++
    b.filter (fun p => (Dict.get? a p.1).isNone)

/-- Rows of the `user` table (src/data_models.py, class User). -/
structure User where
  id : Nat
  username : String
deriving Repr, DecidableEq

/-- Rows of the `movie` table (src/data_models.py, class Movie).
`imdbid` carries a SQLite UNIQUE constraint (`db.String(10), unique=True`). -/
structure Movie where
  id : Nat
  title : String
  year : String
  genre : String
  rating : String
  director : String
  user_id : Nat
  imdbid : String
deriving Repr, DecidableEq

/-- Rows of the `review` table (src/data_models.py, class Review). -/
structure Review where
  id : Nat
  user_id : Nat
  movie_id : Nat
  review_text : String
  rating : Int
deriving Repr, DecidableEq

/-- The SQLite database reached through `db.session`: the three tables plus the
autoincrement counters for the integer primary keys. -/
structure Store where
  users : List User
  movies : List Movie
  reviews : List Review
  next_user_id : Nat
  next_movie_id : Nat
deriving Repr, DecidableEq

/-- `User.query.get(user_id)`: primary-key lookup. -/
def queryGetUser (s : Store) (uid : Nat) : Option User :=
  s.users.find? (fun u => u.id == uid)

/-- `user.movies` (the `db.relationship` backref): all movies whose
`user_id` is this user's id. -/
def userMovies (s : Store) (uid : Nat) : List Movie :=
  s.movies.filter (fun m => m.user_id == uid)

/-- `Movie.query.filter_by(imdbid=x).first()` (src/app.py, used by
`update_movie`, `delete_movie`, `add_review`, `delete_review`). -/
def findMovieByImdbId (s : Store) (x : String) : Option Movie :=
  s.movies.find? (fun m => m.imdbid == x)

/-- `Movie.to_dict` from src/data_models.py: the keys, in source order, are
Id, Title, Year, Genre, Director, Rating (no imdbid entry). `Id` holds the
integer primary key, rendered here as its numeral because `Dict` is
string-valued; no claim inspects the Id entry. -/
def Movie.to_dict (m : Movie) : Dict :=
  [("Id", toString m.id), ("Title", m.title), ("Year", m.year),
   ("Genre", m.genre), ("Director", m.director), ("Rating", m.rating)]

/-- Outcome of a Flask route handler: a redirect after a committed action, or a
rendered error page; in both cases paired with the database state afterwards. -/
inductive RouteResult where
  | redirect (s : Store)
  | errorPage (msg : String) (s : Store)
deriving Repr, DecidableEq

/-- The store carried by a route result. -/
def RouteResult.store : RouteResult → Store
  | .redirect s => s
  | .errorPage _ s => s

/-- Python exceptions that the embedded code can raise or catch. -/
inductive PyExc where
  | attributeError (msg : String)
  | invalidRequestError (msg : String)
  | requestException (msg : String)
  | otherError (msg : String)
deriving Repr, DecidableEq

/-- Rendering used when an exception is interpolated into a message string. -/
def PyExc.str : PyExc → String
  | .attributeError m => "AttributeError: " ++ m
  | .invalidRequestError m => "InvalidRequestError: " ++ m
  | .requestException m => "RequestException: " ++ m
  | .otherError m => m

-- ## The External Metadata Gateway (src/app.py, fetch_movie_details)

/-- What `requests.get(url)` yields for a given title: either a response object
(with its HTTP status and its body, `none` when the body is not valid JSON), or a
raised `requests.RequestException` (connection failure, timeout, ...). -/
inductive HttpResult where
  | response (status : Nat) (body : Option Dict)
  | transportError (msg : String)
deriving Repr, DecidableEq

/-- `response.raise_for_status()`: raises `requests.HTTPError` (a
`RequestException` subclass) when the status is a 4xx/5xx code. -/
def raise_for_status (status : Nat) : Except PyExc Unit :=
  if 400 ≤ status then .error (.requestException ("HTTPError: " ++ toString status))
  else .ok ()

/-- The body of the `try` block in `fetch_movie_details`:
`requests.get`, `raise_for_status`, then return `response.json()` when the status
is 200 and an empty dict otherwise. `response.json()` on a malformed body raises
`requests.exceptions.JSONDecodeError`, a `RequestException` subclass. -/
def fetchBody (res : HttpResult) : Except PyExc Dict :=
  match res with
  | .transportError msg => .error (.requestException msg)
  | .response status body =>
      match raise_for_status status with
      | .error e => .error e
      | .ok _ =>
          if status == 200 then
            match body with
            | some d => .ok d
            | none => .error (.requestException "JSONDecodeError: malformed response body")
          else .ok []

/-- `fetch_movie_details` (src/app.py lines 82-112): the try block above wrapped
in `except requests.RequestException: ... return \x7b\x7d`. Exceptions other than
`RequestException` would propagate, but none arises in the body. -/
def fetch_movie_details (res : HttpResult) : Except PyExc Dict :=
  match fetchBody res with
  | .ok d => .ok d
  | .error (.requestException _) => .ok []
  | .error e => .error e

/-- Every failure mode the gateway can experience: a raised transport error
(covering timeouts), a non-success status, or a malformed response body. -/
def gatewayFailure (res : HttpResult) : Bool :=
  match res with
  | .transportError _ => true
  | .response status body => status != 200 || body.isNone

-- ## Entity-store operations and route handlers (src/app.py, src/data_models.py)

/-- `User.add_user(username)` (src/data_models.py lines 35-39): constructs the
user, adds it to the session and commits. There is no validation of any kind;
the `nullable=False` column constraint does not reject the empty string. The id
is SQLite autoincrement. -/
def User.add_user (s : Store) (username : String) : Store :=
  { s with users := s.users ++ [{ id := s.next_user_id, username := username }],
           next_user_id := s.next_user_id + 1 }

/-- POST branch of the `delete_user` route (src/app.py lines 229-247): look the
user up, delete each movie in `user.movies`, delete the user, commit. The
`reviews` relationship declares no delete cascade, so at flush time SQLAlchemy
nullifies `review.movie_id` for every review whose `movie_id` equals a deleted
movie's integer primary key; that column is `nullable=False`, so if any such
review exists the commit raises `IntegrityError`, the route's `except` catches
it, and the rolled-back transaction leaves the store unchanged behind the error
page. Otherwise the user and movies are deleted and any remaining reviews are
untouched. -/
def delete_user (s : Store) (uid : Nat) : RouteResult :=
  match queryGetUser s uid with
  | none => .errorPage "User not found." s
  | some u =>
      if s.reviews.any (fun rv =>
          s.movies.any (fun m => m.user_id == u.id && rv.movie_id == m.id)) then
        .errorPage "An error occurred while deleting a user" s
      else
        .redirect { s with
          movies := s.movies.filter (fun m => !(m.user_id == u.id)),
          users := s.users.filter (fun x => !(x.id == u.id)) }

/-- `db.session.add(movie); db.session.commit()`: the INSERT commits unless the
SQLite UNIQUE constraint on `movie.imdbid` is violated by an existing row (the
column is never NULL on this code path, and the empty string is a comparable
value for SQLite UNIQUE). -/
def insertMovieChecked (s : Store) (m : Movie) : Except String Store :=
  if s.movies.any (fun x => x.imdbid == m.imdbid) then
    .error "IntegrityError: UNIQUE constraint failed: movie.imdbid"
  else .ok { s with movies := s.movies ++ [m], next_movie_id := s.next_movie_id + 1 }

/-- POST branch of the `add_movie` route (src/app.py lines 266-291),
parameterised by `gw`, the dict `fetch_movie_details(movie_title)` returned
(always a plain dict: see the gateway theorems). The movie keeps the
user-entered title and rating; year, genre, director and imdbid come from the
gateway dict with empty-string `.get` defaults. An exception from the commit is
caught by the route's `except` and rendered as an error page. -/
def add_movie (s : Store) (uid : Nat) (movie_title movie_rating : String)
    (gw : Dict) : RouteResult :=
  if gw.isEmptyDict then .errorPage "Movie details not found." s
  else
    let movie : Movie :=
      { id := s.next_movie_id,
        title := movie_title,
        year := Dict.getD gw "Year" "",
        genre := Dict.getD gw "Genre" "",
        rating := movie_rating,
        director := Dict.getD gw "Director" "",
        user_id := uid,
        imdbid := Dict.getD gw "imdbID" "" }
    match insertMovieChecked s movie with
    | .error _ => .errorPage "An error occurred while adding a movie" s
    | .ok s2 => .redirect s2

/-- Replace the row with primary key `mid` (in-place mutation of the mapped
object followed by commit). -/
def replaceMovie (movies : List Movie) (mid : Nat) (m2 : Movie) : List Movie :=
  movies.map (fun m => if m.id == mid then m2 else m)

/-- POST branch of the `update_movie` route (src/app.py lines 312-338),
parameterised by `gw`, the dict `fetch_movie_details(new_title)` returned. The
target is resolved by `Movie.query.filter_by(imdbid=movie_id).first()`; every
metadata field is overwritten from the gateway dict (with the current value as
`.get` default) and the rating is taken from the form. The commit enforces the
UNIQUE constraint on `imdbid` against the other rows. -/
def update_movie_route (s : Store) (movie_id new_title new_rating : String)
    (gw : Dict) : RouteResult :=
  match findMovieByImdbId s movie_id with
  | none => .errorPage "Movie not found." s
  | some movie =>
      if gw.isEmptyDict then .errorPage "New movie details not found." s
      else
        let m2 : Movie :=
          { movie with
            title := Dict.getD gw "Title" movie.title,
            year := Dict.getD gw "Year" movie.year,
            genre := Dict.getD gw "Genre" movie.genre,
            director := Dict.getD gw "Director" movie.director,
            imdbid := Dict.getD gw "imdbID" movie.imdbid,
            rating := new_rating }
        if s.movies.any (fun x => !(x.id == movie.id) && x.imdbid == m2.imdbid) then
          .errorPage "An error occurred while updating a movie" s
        else
          .redirect { s with movies := replaceMovie s.movies movie.id m2 }

/-- The enrichment part of the `get_user_movies` route (src/app.py lines
172-186), parameterised by `gateway`, giving the dict `fetch_movie_details`
returned for each title: for each of the user's movies, build
`\x7b**movie.to_dict(), **movie_details\x7d`. Returns `none` when the user does not
exist (the route renders "User not found."). -/
def get_user_movies_details (s : Store) (gateway : String → Dict) (uid : Nat) :
    Option (List Dict) :=
  match queryGetUser s uid with
  | none => none
  | some user =>
      some ((userMovies s user.id).map
        (fun m => Dict.merge (Movie.to_dict m) (gateway m.title)))

-- ## `Movie.update_movie` from src/data_models.py (dynamically typed)

/-- A Python value passed as an argument: the embedding needs integers, strings
and dicts for the arguments `Movie.update_movie` can receive. -/
inductive PyArg where
  | pyInt (n : Int)
  | pyStr (s : String)
  | pyDict (d : Dict)
deriving Repr, DecidableEq

/-- `Movie.query.get(ident)`, SQLAlchemy primary-key lookup: an integer id, a
numeric string (converted by SQLite integer affinity), or a mapping whose keys
must name exactly the primary-key columns — any other mapping raises
`InvalidRequestError`. -/
def queryGetMovieDyn (s : Store) (ident : PyArg) : Except PyExc (Option Movie) :=
  match ident with
  | .pyInt n => .ok (s.movies.find? (fun m => (m.id : Int) == n))
  | .pyStr str => .ok (s.movies.find? (fun m => toString m.id == str))
  | .pyDict d =>
      if d.map (fun p => p.1) == ["id"] then
        .ok (s.movies.find? (fun m => some (toString m.id) == Dict.get? d "id"))
      else
        .error (.invalidRequestError
          "incorrect names of values in identifier to formulate primary key")

/-- `v.get(key, dflt)`: only dicts have a `get` method; on an integer or a
string it raises `AttributeError`. -/
def PyArg.dictGet (v : PyArg) (k dflt : String) : Except PyExc String :=
  match v with
  | .pyDict d => .ok (Dict.getD d k dflt)
  | .pyInt _ => .error (.attributeError "int object has no attribute get")
  | .pyStr _ => .error (.attributeError "str object has no attribute get")

/-- `Movie.update_movie(movie_id, user_id)` (src/data_models.py lines 93-108):
looks the movie up by `movie_id`, then reads `movie_id.get(field, current)` for
each field — the same `movie_id` argument is used both as the primary key and as
the partial-fields dict; `user_id` is never read. Returns `False` when the movie
is absent, `True` after a successful commit. -/
def Movie.update_movie (s : Store) (movie_id user_id : PyArg) :
    Except PyExc (Store × Bool) := do
  let mo ← queryGetMovieDyn s movie_id
  match mo with
  | none => .ok (s, false)
  | some movie => do
      let t ← movie_id.dictGet "title" movie.title
      let y ← movie_id.dictGet "year" movie.year
      let g ← movie_id.dictGet "genre" movie.genre
      let r ← movie_id.dictGet "rating" movie.rating
      let d ← movie_id.dictGet "director" movie.director
      let im ← movie_id.dictGet "imdbid" movie.imdbid
      let m2 : Movie := ⟨movie.id, t, y, g, r, d, movie.user_id, im⟩
      if s.movies.any (fun x => !(x.id == movie.id) && x.imdbid == m2.imdbid) then
        .error (.otherError "IntegrityError: UNIQUE constraint failed: movie.imdbid")
      else
        .ok ({ s with movies := replaceMovie s.movies movie.id m2 }, true)

-- ## The flat-file backend (src/datamanager/json_data_manager.py)

/-- The attributes a `JSONDataManager` instance exposes, straight from the class
body: the two instance attributes set in `__init__`, the class attribute
`user_counter`, and the defined methods. Neither `_load_data` nor `_save_data`
is among them — only `load_data` and `save_data` exist. -/
def jsonDataManagerAttrs : List String :=
  ["filename", "data", "load_data", "save_data", "get_all_users",
   "get_user_movies", "user_counter", "add_user", "delete_user",
   "add_movie_to_user", "delete_movie", "update_movie"]

/-- Python attribute lookup on a `JSONDataManager` instance: `AttributeError`
when the name is not defined on the instance or the class. -/
def getattrJSONDataManager (name : String) : Except PyExc Unit :=
  if name ∈ jsonDataManagerAttrs then .ok ()
  else .error (.attributeError ("JSONDataManager object has no attribute " ++ name))

/-- The JSON file the flat-file backend persists to, kept abstract: the claim
settled against it only needs to know whether the file was rewritten. -/
structure JsonFile where
  contents : String
deriving Repr, DecidableEq

/-- `JSONDataManager.update_movie` (src/datamanager/json_data_manager.py lines
68-97). The `try` body starts with `data = self._load_data()`; that attribute
lookup fails (the class only defines `load_data`), so the traversal of the
users list in `data` and the closing `self._save_data(data)` — itself also an
undefined attribute — are never reached, and the `except` clause re-raises a
wrapped `Exception`. A successful run would return the rewritten file; an error
means no write to the file occurred. -/
def JSONDataManager.update_movie (file : JsonFile)
    (user_id movie_id new_title new_rating : String) : Except PyExc JsonFile :=
  let body : Except PyExc JsonFile := do
    let _ ← getattrJSONDataManager "_load_data"
    let _ ← getattrJSONDataManager "_save_data"
    .ok file
  match body with
  | .ok f => .ok f
  | .error e =>
      .error (.otherError ("An error occurred while updating the movie: " ++ e.str))

-- ## Invariants of the SQLite store

/-- The SQLite UNIQUE constraint on `movie.imdbid`, as a store invariant: two
movies with the same imdbid are the same movie. On the embedded code paths the
column is always a string (possibly empty), never NULL, and SQLite compares
empty strings like any other value. -/
def imdbUnique (s : Store) : Prop :=
  ∀ m1 ∈ s.movies, ∀ m2 ∈ s.movies, m1.imdbid = m2.imdbid → m1 = m2

/-- The autoincrement invariant for the `user` table: every existing row's id is
below the next id SQLite will assign. -/
def userIdsFresh (s : Store) : Prop :=
  ∀ u ∈ s.users, u.id < s.next_user_id

-- ## Concrete stores and gateway responses used by witnesses and counterexamples

/-- A store holding one user who owns one movie whose stored genre is Drama. -/
def c1Store : Store :=
  { users := [⟨1, "alice"⟩],
    movies := [⟨1, "Inception", "2010", "Drama", "5", "Christopher Nolan", 1, "tt1375666"⟩],
    reviews := [],
    next_user_id := 2, next_movie_id := 2 }

/-- A gateway that returns genre Comedy for every title. -/
def c1Gateway : String → Dict :=
  fun _ => [("Title", "Inception"), ("Year", "2010"), ("Genre", "Comedy"),
            ("Director", "Christopher Nolan"), ("imdbID", "tt1375666")]

/-- A store holding one user, one movie owned by that user, and one review of
that movie. -/
def c2Store : Store :=
  { users := [⟨1, "alice"⟩],
    movies := [⟨1, "Inception", "2010", "Sci-Fi", "5", "Christopher Nolan", 1, "tt1375666"⟩],
    reviews := [⟨1, 1, 1, "great movie", 5⟩],
    next_user_id := 2, next_movie_id := 2 }

/-- A store with a single user and no movies. -/
def c3Store : Store :=
  { users := [⟨1, "alice"⟩], movies := [], reviews := [],
    next_user_id := 2, next_movie_id := 1 }

/-- A populated gateway response used by the enrichment witnesses. -/
def enrichedGw : Dict :=
  [("Title", "Inception"), ("Year", "2010"), ("Genre", "Sci-Fi"),
   ("Director", "Christopher Nolan"), ("imdbID", "tt1375666")]

/-- A store holding one movie, target of the update witness. -/
def c4Store : Store :=
  { users := [⟨1, "alice"⟩],
    movies := [⟨1, "Old Title", "2001", "Drama", "3", "Someone", 1, "tt0000001"⟩],
    reviews := [],
    next_user_id := 2, next_movie_id := 2 }

/-- An entirely empty store. -/
def emptyStore : Store := ⟨[], [], [], 1, 1⟩

/-- A store holding one movie with primary key 1, used to evaluate
`Movie.update_movie`. -/
def c9Store : Store :=
  { users := [⟨1, "alice"⟩],
    movies := [⟨1, "Inception", "2010", "Sci-Fi", "5", "Christopher Nolan", 1, "tt1375666"⟩],
    reviews := [],
    next_user_id := 2, next_movie_id := 2 }

-- ## Auxiliary lemmas

theorem Dict.getD_eq_of_get? {d : Dict} {k v : String} (dflt : String)
    (h : Dict.get? d k = some v) : Dict.getD d k dflt = v := by
  simp [Dict.getD, h]

theorem Dict.isEmpty_false_of_get? {d : Dict} {k v : String}
    (h : Dict.get? d k = some v) : d.isEmpty = false := by
  cases d with
  | nil => simp [Dict.get?] at h
  | cons p t => simp [List.isEmpty]

/-- Filtering a dict with a predicate that holds on every entry keyed `k`
does not change the first entry found at key `k`. -/
theorem find?_filter_key (b : Dict) (k : String) (q : String × String → Bool)
    (hq : ∀ p : String × String, p.1 = k → q p = true) :
    (b.filter q).find? (fun p => p.1 == k) = b.find? (fun p => p.1 == k) := by
  induction b with
  | nil => rfl
  | cons x t ih =>
    by_cases hx : x.1 = k
    · have hqx : q x = true := hq x hx
      simp [List.filter_cons, hqx, List.find?_cons, hx]
    · rcases hqx : q x with _ | _
      · simp [List.filter_cons, hqx, List.find?_cons, hx, ih]
      · simp [List.filter_cons, hqx, List.find?_cons, hx, ih]

/-- If `b` binds key `k`, the Python merge `\x7b**a, **b\x7d` returns `b`'s value at
`k`: the right-hand dict takes precedence on every key collision. -/
theorem Dict.get?_merge_right (a b : Dict) (k v : String)
    (h : Dict.get? b k = some v) :
    Dict.get? (Dict.merge a b) k = some v := by
  unfold Dict.get? Dict.merge
  rw [List.find?_append]
  rcases hfa : a.find? (fun p => p.1 == k) with _ | pr
  · have hnone : (a.map (fun p => (p.1, Dict.getD b p.1 p.2))).find?
        (fun p => p.1 == k) = none := by
      rw [List.find?_map]
      rw [show ((fun p : String × String => p.1 == k) ∘
          (fun p : String × String => (p.1, Dict.getD b p.1 p.2))) =
          (fun p => p.1 == k) from rfl]
      rw [hfa]
      rfl
    have hfilter := find?_filter_key b k
      (fun p => (Dict.get? a p.1).isNone)
      (by
        intro p hp
        show (Dict.get? a p.1).isNone = true
        rw [hp]
        unfold Dict.get?
        rw [hfa]
        rfl)
    rw [hnone, Option.none_or, hfilter]
    exact h
  · have hkey := List.find?_some (p := fun p : String × String => p.1 == k) hfa
    have hsome : (a.map (fun p => (p.1, Dict.getD b p.1 p.2))).find?
        (fun p => p.1 == k) = some (pr.1, Dict.getD b pr.1 pr.2) := by
      rw [List.find?_map]
      rw [show ((fun p : String × String => p.1 == k) ∘
          (fun p : String × String => (p.1, Dict.getD b p.1 p.2))) =
          (fun p => p.1 == k) from rfl]
      rw [hfa]
      rfl
    rw [hsome]
    have h1 : pr.1 = k := by simpa using hkey
    simp only [Option.or_some, Option.map_some]
    rw [h1, Dict.getD_eq_of_get? _ h]
    rfl

-- ## Claim theorems

/-- C1 (counterexample): the claim of local precedence in List-with-details is
false. With the stored movie's genre "Drama" and the Gateway returning genre
"Comedy" for its title, the merged record shown by `get_user_movies` carries
"Comedy" — the Gateway's value — because `\x7b**movie.to_dict(), **movie_details\x7d`
lets the right-hand dict win every key collision. -/
theorem c1_counterexample :
    (get_user_movies_details c1Store c1Gateway 1).map
        (fun ds => ds.map (fun dct => Dict.get? dct "Genre"))
      = some [some "Comedy"] ∧
    ¬ ("Comedy" = "Drama") := by
  exact ⟨rfl, by decide⟩

/-- C1 (amended): in List-with-details, for every movie of the user, whenever
the Gateway result binds a key (including every key the stored record also
supplies, such as Genre), the merged record shown for that movie contains the
Gateway's value — Gateway precedence on every key collision, the opposite of the
claimed local precedence. -/
theorem c1_gateway_precedence (s : Store) (gateway : String → Dict) (uid : Nat)
    (u : User) (hu : queryGetUser s uid = some u)
    (m : Movie) (hm : m ∈ userMovies s u.id) (k v : String)
    (hk : Dict.get? (gateway m.title) k = some v) :
    ∃ ds, get_user_movies_details s gateway uid = some ds ∧
      Dict.merge (Movie.to_dict m) (gateway m.title) ∈ ds ∧
      Dict.get? (Dict.merge (Movie.to_dict m) (gateway m.title)) k = some v := by
  refine ⟨(userMovies s u.id).map
      (fun x => Dict.merge (Movie.to_dict x) (gateway x.title)), ?_, ?_, ?_⟩
  · unfold get_user_movies_details
    rw [hu]
  · exact List.mem_map_of_mem _ hm
  · exact Dict.get?_merge_right _ _ _ _ hk

/-- C1 (witness for the amended theorem), at the concrete store and gateway of
the counterexample: the merged record carries the Gateway's genre. -/
theorem c1_gateway_precedence_witness :
    ∃ ds, get_user_movies_details c1Store c1Gateway 1 = some ds ∧
      Dict.merge (Movie.to_dict ⟨1, "Inception", "2010", "Drama", "5",
        "Christopher Nolan", 1, "tt1375666"⟩) (c1Gateway "Inception") ∈ ds ∧
      Dict.get? (Dict.merge (Movie.to_dict ⟨1, "Inception", "2010", "Drama", "5",
        "Christopher Nolan", 1, "tt1375666"⟩) (c1Gateway "Inception")) "Genre"
        = some "Comedy" :=
  c1_gateway_precedence c1Store c1Gateway 1 ⟨1, "alice"⟩ rfl
    ⟨1, "Inception", "2010", "Drama", "5", "Christopher Nolan", 1, "tt1375666"⟩
    (by decide) "Genre" "Comedy" rfl

/-- C2 (code bug, evaluated): deleting user 1, who owns movie 1 which carries
review 1, does not cascade. The movie deletion makes SQLAlchemy nullify
`review.movie_id`, which `nullable=False` forbids, so the commit raises
`IntegrityError` and the route renders an error page with nothing deleted: the
user, the movie and the review all remain in the store, and the transitive
cascade the claim requires (zero residual Movie or Review records) never
happens. -/
theorem c2_cascade_evaluation :
    delete_user c2Store 1 =
      .errorPage "An error occurred while deleting a user" c2Store ∧
    ((delete_user c2Store 1).store).users ≠ [] ∧
    ((delete_user c2Store 1).store).movies.filter
        (fun m => m.user_id == 1) ≠ [] ∧
    ((delete_user c2Store 1).store).reviews.filter
        (fun rv => rv.movie_id == 1) ≠ [] := by
  exact ⟨rfl, by decide, by decide, by decide⟩

/-- C5: when the Gateway returns the empty sentinel, Create-with-enrichment
renders "Movie details not found.", no Movie is created, the store is unchanged,
and the user's movie count is the same before and after. -/
theorem c5_create_empty_sentinel (s : Store) (uid : Nat) (t r : String) :
    add_movie s uid t r [] = .errorPage "Movie details not found." s ∧
    (userMovies (add_movie s uid t r []).store uid).length
      = (userMovies s uid).length := by
  exact ⟨rfl, rfl⟩

/-- C8 (counterexample): `createUser` does not fail on the empty username. On an
empty store, `User.add_user` with the empty string creates and persists a user
with username equal to the empty string, immediately visible via lookup — no
`ValidationError` occurs anywhere in the code. -/
theorem c8_counterexample :
    (User.add_user emptyStore "").users = [⟨1, ""⟩] ∧
    queryGetUser (User.add_user emptyStore "") 1 = some ⟨1, ""⟩ := by
  exact ⟨rfl, rfl⟩

/-- C8 (amended): `createUser` performs no validation on the username — every
username, the empty string included, is accepted; it assigns a fresh unique id
(distinct from every existing user's id) and the new User is immediately
visible to subsequent operations. -/
theorem c8_fresh_id_visible (s : Store) (username : String)
    (hfresh : userIdsFresh s) :
    ∃ u : User,
      (User.add_user s username).users = s.users ++ [u] ∧
      u.username = username ∧
      (∀ w ∈ s.users, w.id ≠ u.id) ∧
      queryGetUser (User.add_user s username) u.id = some u ∧
      userIdsFresh (User.add_user s username) := by
  refine ⟨⟨s.next_user_id, username⟩, rfl, rfl, ?_, ?_, ?_⟩
  · intro w hw
    exact Nat.ne_of_lt (hfresh w hw)
  · unfold queryGetUser User.add_user
    rw [List.find?_append]
    have hnone : s.users.find? (fun x => x.id == s.next_user_id) = none := by
      rw [List.find?_eq_none]
      intro x hx
      simpa using Nat.ne_of_lt (hfresh x hx)
    rw [hnone, Option.none_or]
    simp
  · intro w hw
    simp only [User.add_user] at hw
    rcases List.mem_append.mp hw with h | h
    · exact Nat.lt_succ_of_lt (hfresh w h)
    · simp only [List.mem_singleton] at h
      subst h
      exact Nat.lt_succ_self _

/-- C8 (witness for the amended theorem) on a store with one existing user. -/
theorem c8_fresh_id_visible_witness :
    ∃ u : User,
      (User.add_user ⟨[⟨1, "alice"⟩], [], [], 2, 1⟩ "bob").users
        = [⟨1, "alice"⟩] ++ [u] ∧
      u.username = "bob" ∧
      (∀ w ∈ ([⟨1, "alice"⟩] : List User), w.id ≠ u.id) ∧
      queryGetUser (User.add_user ⟨[⟨1, "alice"⟩], [], [], 2, 1⟩ "bob") u.id
        = some u ∧
      userIdsFresh (User.add_user ⟨[⟨1, "alice"⟩], [], [], 2, 1⟩ "bob") :=
  c8_fresh_id_visible ⟨[⟨1, "alice"⟩], [], [], 2, 1⟩ "bob"
    (by intro u hu; simp at hu; subst hu; decide)

/-- C9 (code bug, evaluated): `Movie.update_movie` cannot apply partial fields.
Called with the integer primary key of an existing movie (the only way to make
the lookup succeed with a plain id), it evaluates `movie_id.get(...)` on that
integer and raises `AttributeError` before assigning anything — there is no
parameter through which partial fields could be supplied, since `movie_id`
doubles as lookup key and fields dict and `user_id` is never read. On an absent
id it returns `False` (not a typed NotFound) with the store unchanged. -/
theorem c9_update_movie_evaluation :
    Movie.update_movie c9Store (.pyInt 1) (.pyInt 1) =
      .error (.attributeError "int object has no attribute get") ∧
    Movie.update_movie c9Store (.pyInt 99) (.pyInt 1) = .ok (c9Store, false) := by
  exact ⟨rfl, rfl⟩

/-- C10: the flat-file backend's `update_movie` fails on every input and never
writes: its body starts by looking up `self._load_data`, which does not exist on
`JSONDataManager` (only `load_data` and `save_data` do), so the `try` body
raises at once, the `except` clause re-raises a wrapped `Exception`, and the
persisted file is untouched (in this embedding a write can only happen through a
successful `.ok` result, which never occurs). -/
theorem c10_json_update_always_fails (file : JsonFile)
    (user_id movie_id new_title new_rating : String) :
    JSONDataManager.update_movie file user_id movie_id new_title new_rating =
      .error (.otherError ("An error occurred while updating the movie: " ++
        "AttributeError: JSONDataManager object has no attribute _load_data")) := by
  rfl

/-- C3: for every (ownerId, title, rating) input for which the Gateway returns a
populated result (and whose imdbID does not collide with an existing row, which
would make the commit fail), Create-with-enrichment persists exactly one new
Movie whose title is the user-entered input title (the Gateway's Title entry is
never read on this path), whose year, genre, director and imdbid equal the
corresponding Gateway fields, and whose rating is the user's input rating. -/
theorem c3_create_enrichment (s : Store) (uid : Nat) (t r : String) (gw : Dict)
    (y g d im : String)
    (hy : Dict.get? gw "Year" = some y)
    (hg : Dict.get? gw "Genre" = some g)
    (hd : Dict.get? gw "Director" = some d)
    (him : Dict.get? gw "imdbID" = some im)
    (hfresh : ∀ x ∈ s.movies, x.imdbid ≠ im) :
    ∃ m : Movie,
      add_movie s uid t r gw =
        .redirect { s with movies := s.movies ++ [m],
                           next_movie_id := s.next_movie_id + 1 } ∧
      m.title = t ∧ m.rating = r ∧ m.year = y ∧ m.genre = g ∧
      m.director = d ∧ m.imdbid = im ∧ m.user_id = uid := by
  have e1 : Dict.getD gw "Year" "" = y := Dict.getD_eq_of_get? _ hy
  have e2 : Dict.getD gw "Genre" "" = g := Dict.getD_eq_of_get? _ hg
  have e3 : Dict.getD gw "Director" "" = d := Dict.getD_eq_of_get? _ hd
  have e4 : Dict.getD gw "imdbID" "" = im := Dict.getD_eq_of_get? _ him
  have hne : gw.isEmptyDict = false := Dict.isEmpty_false_of_get? hy
  have hany : s.movies.any (fun x => x.imdbid == im) = false := by
    rw [List.any_eq_false]
    intro x hx
    simpa using hfresh x hx
  refine ⟨⟨s.next_movie_id, t, y, g, r, d, uid, im⟩,
    ?_, rfl, rfl, rfl, rfl, rfl, rfl, rfl⟩
  simp only [add_movie, insertMovieChecked, hne, Bool.false_eq_true, if_false,
    e1, e2, e3, e4, hany]

/-- C3 (witness): the theorem applied to a store with one user and no movies,
and a populated gateway response. -/
theorem c3_create_enrichment_witness :
    ∃ m : Movie,
      add_movie c3Store 1 "Inception" "5" enrichedGw =
        .redirect { c3Store with movies := c3Store.movies ++ [m],
                                 next_movie_id := c3Store.next_movie_id + 1 } ∧
      m.title = "Inception" ∧ m.rating = "5" ∧ m.year = "2010" ∧
      m.genre = "Sci-Fi" ∧ m.director = "Christopher Nolan" ∧
      m.imdbid = "tt1375666" ∧ m.user_id = 1 :=
  c3_create_enrichment c3Store 1 "Inception" "5" enrichedGw
    "2010" "Sci-Fi" "Christopher Nolan" "tt1375666" rfl rfl rfl rfl
    (by intro x hx; simp [c3Store] at hx)

/-- C4: Update-with-enrichment resolves its target by imdbid (the hypothesis is
a `findMovieByImdbId` resolution, mirroring `Movie.query.filter_by(imdbid=...)`),
and when the Gateway result is populated (and the new imdbID does not collide
with a different row) the persisted Movie has title, year, genre, director and
imdbid overwritten with the Gateway's values — title included, the opposite
precedence from create — and rating set from the user input. -/
theorem c4_update_enrichment (s : Store) (movie_id new_title new_rating : String)
    (gw : Dict) (movie : Movie)
    (hfind : findMovieByImdbId s movie_id = some movie)
    (tt y g d im : String)
    (ht : Dict.get? gw "Title" = some tt)
    (hy : Dict.get? gw "Year" = some y)
    (hg : Dict.get? gw "Genre" = some g)
    (hd : Dict.get? gw "Director" = some d)
    (him : Dict.get? gw "imdbID" = some im)
    (hfresh : ∀ x ∈ s.movies, x.id ≠ movie.id → x.imdbid ≠ im) :
    ∃ m2 : Movie,
      update_movie_route s movie_id new_title new_rating gw =
        .redirect { s with movies := replaceMovie s.movies movie.id m2 } ∧
      m2.id = movie.id ∧ m2.user_id = movie.user_id ∧
      m2.title = tt ∧ m2.year = y ∧ m2.genre = g ∧ m2.director = d ∧
      m2.imdbid = im ∧ m2.rating = new_rating := by
  have e0 : Dict.getD gw "Title" movie.title = tt := Dict.getD_eq_of_get? _ ht
  have e1 : Dict.getD gw "Year" movie.year = y := Dict.getD_eq_of_get? _ hy
  have e2 : Dict.getD gw "Genre" movie.genre = g := Dict.getD_eq_of_get? _ hg
  have e3 : Dict.getD gw "Director" movie.director = d := Dict.getD_eq_of_get? _ hd
  have e4 : Dict.getD gw "imdbID" movie.imdbid = im := Dict.getD_eq_of_get? _ him
  have hne : gw.isEmptyDict = false := Dict.isEmpty_false_of_get? ht
  have hany : s.movies.any (fun x => !(x.id == movie.id) && x.imdbid == im)
      = false := by
    rw [List.any_eq_false]
    intro x hx
    simp only [Bool.and_eq_true, Bool.not_eq_true', beq_eq_false_iff_ne,
      beq_iff_eq, not_and]
    intro hid him2
    exact hfresh x hx hid him2
  refine ⟨{ movie with
      title := tt,
      year := y,
      genre := g,
      director := d,
      imdbid := im,
      rating := new_rating },
    ?_, rfl, rfl, rfl, rfl, rfl, rfl, rfl, rfl⟩
  simp only [update_movie_route, hfind, hne, Bool.false_eq_true, if_false,
    e0, e1, e2, e3, e4, hany]

/-- C4 (witness): the theorem applied to a store holding one movie with imdbid
tt0000001, updated from a populated gateway response. -/
theorem c4_update_enrichment_witness :
    ∃ m2 : Movie,
      update_movie_route c4Store "tt0000001" "Inception" "4" enrichedGw =
        .redirect { c4Store with movies := replaceMovie c4Store.movies 1 m2 } ∧
      m2.id = 1 ∧ m2.user_id = 1 ∧
      m2.title = "Inception" ∧ m2.year = "2010" ∧ m2.genre = "Sci-Fi" ∧
      m2.director = "Christopher Nolan" ∧ m2.imdbid = "tt1375666" ∧
      m2.rating = "4" :=
  c4_update_enrichment c4Store "tt0000001" "Inception" "4" enrichedGw
    ⟨1, "Old Title", "2001", "Drama", "3", "Someone", 1, "tt0000001"⟩ rfl
    "Inception" "2010" "Sci-Fi" "Christopher Nolan" "tt1375666"
    rfl rfl rfl rfl rfl
    (by intro x hx hne2; simp [c4Store] at hx; subst hx; exact absurd rfl hne2)

/-- C6: the Gateway never propagates a transport-level error. For every HTTP
outcome, `fetch_movie_details` returns a dict (never an uncaught exception),
and on every failure mode — a raised transport error or timeout, a non-success
status, or a malformed response body — it returns the empty sentinel dict. -/
theorem c6_gateway_never_raises (res : HttpResult) :
    (∃ d, fetch_movie_details res = .ok d) ∧
    (gatewayFailure res = true → fetch_movie_details res = .ok []) := by
  cases res with
  | transportError msg => exact ⟨⟨[], rfl⟩, fun _ => rfl⟩
  | response status body =>
    by_cases h4 : 400 ≤ status
    · have hb : fetchBody (.response status body) =
          .error (.requestException ("HTTPError: " ++ toString status)) := by
        simp [fetchBody, raise_for_status, h4]
      exact ⟨⟨[], by simp [fetch_movie_details, hb]⟩,
        fun _ => by simp [fetch_movie_details, hb]⟩
    · by_cases h2 : status = 200
      · subst h2
        cases body with
        | some d =>
          have hb : fetchBody (.response 200 (some d)) = .ok d := by
            simp [fetchBody, raise_for_status]
          refine ⟨⟨d, by simp [fetch_movie_details, hb]⟩, ?_⟩
          intro hf
          simp [gatewayFailure] at hf
        | none =>
          have hb : fetchBody (.response 200 none) =
              .error (.requestException "JSONDecodeError: malformed response body") := by
            simp [fetchBody, raise_for_status]
          exact ⟨⟨[], by simp [fetch_movie_details, hb]⟩,
            fun _ => by simp [fetch_movie_details, hb]⟩
      · have hb : fetchBody (.response status body) = .ok [] := by
          simp [fetchBody, raise_for_status, h4, h2]
        exact ⟨⟨[], by simp [fetch_movie_details, hb]⟩,
          fun _ => by simp [fetch_movie_details, hb]⟩

/-- C6 (witness): a timed-out request is absorbed into the empty sentinel. -/
theorem c6_gateway_never_raises_witness :
    fetch_movie_details (.transportError "connection timed out") = .ok [] :=
  (c6_gateway_never_raises (.transportError "connection timed out")).2 rfl

/-- C7: `findMovieByImdbId` round-trips. If the store satisfies the imdbid
uniqueness invariant (the SQLite UNIQUE constraint) and a Movie with a non-empty
imdbid is successfully inserted (the constraint check passing), then looking the
imdbid up returns exactly that Movie, every movie in the store carrying that
imdbid is that Movie (no other movie shares it), and the uniqueness invariant is
preserved. -/
theorem c7_imdbid_roundtrip (s : Store) (m : Movie) (s2 : Store)
    (hinv : imdbUnique s) (hne : m.imdbid ≠ "")
    (hins : insertMovieChecked s m = .ok s2) :
    findMovieByImdbId s2 m.imdbid = some m ∧
    (∀ x ∈ s2.movies, x.imdbid = m.imdbid → x = m) ∧
    imdbUnique s2 := by
  unfold insertMovieChecked at hins
  rcases hcond : s.movies.any (fun x => x.imdbid == m.imdbid) with _ | _
  case true =>
    rw [hcond] at hins
    simp at hins
  case false =>
    rw [hcond] at hins
    simp only [Bool.false_eq_true, if_false, Except.ok.injEq] at hins
    subst hins
    have hfr : ∀ x ∈ s.movies, x.imdbid ≠ m.imdbid := by
      intro x hx
      have := (List.any_eq_false.mp hcond) x hx
      simpa using this
    refine ⟨?_, ?_, ?_⟩
    · show (s.movies ++ [m]).find? (fun x => x.imdbid == m.imdbid) = some m
      rw [List.find?_append]
      have h1 : s.movies.find? (fun x => x.imdbid == m.imdbid) = none := by
        rw [List.find?_eq_none]
        intro x hx
        simpa using hfr x hx
      rw [h1, Option.none_or]
      simp [List.find?_cons]
    · intro x hx hxim
      rcases List.mem_append.mp hx with h | h
      · exact absurd hxim (hfr x h)
      · simpa using h
    · intro m1 h1 m2 h2 heq
      rcases List.mem_append.mp h1 with ha | ha <;>
        rcases List.mem_append.mp h2 with hb | hb
      · exact hinv m1 ha m2 hb heq
      · exfalso
        have hb2 : m2 = m := by simpa using hb
        subst hb2
        exact hfr m1 ha heq
      · exfalso
        have ha2 : m1 = m := by simpa using ha
        subst ha2
        exact hfr m2 hb heq.symm
      · have ha2 : m1 = m := by simpa using ha
        have hb2 : m2 = m := by simpa using hb
        rw [ha2, hb2]

/-- C7 (witness): inserting a movie with imdbid tt1375666 into the empty store
and looking it up again. -/
theorem c7_imdbid_roundtrip_witness :
    findMovieByImdbId ⟨[], [⟨1, "Inception", "2010", "Sci-Fi", "5",
        "Christopher Nolan", 1, "tt1375666"⟩], [], 1, 2⟩ "tt1375666" =
      some ⟨1, "Inception", "2010", "Sci-Fi", "5", "Christopher Nolan", 1,
        "tt1375666"⟩ ∧
    (∀ x ∈ (⟨[], [⟨1, "Inception", "2010", "Sci-Fi", "5", "Christopher Nolan",
        1, "tt1375666"⟩], [], 1, 2⟩ : Store).movies,
      x.imdbid = "tt1375666" →
      x = ⟨1, "Inception", "2010", "Sci-Fi", "5", "Christopher Nolan", 1,
        "tt1375666"⟩) ∧
    imdbUnique ⟨[], [⟨1, "Inception", "2010", "Sci-Fi", "5", "Christopher Nolan",
        1, "tt1375666"⟩], [], 1, 2⟩ :=
  c7_imdbid_roundtrip emptyStore
    ⟨1, "Inception", "2010", "Sci-Fi", "5", "Christopher Nolan", 1, "tt1375666"⟩
    ⟨[], [⟨1, "Inception", "2010", "Sci-Fi", "5", "Christopher Nolan", 1,
      "tt1375666"⟩], [], 1, 2⟩
    (by intro m1 h1; simp [emptyStore] at h1)
    (by decide) rfl
